import Mathlib

/-!
Shallow embedding of `src/tui2.rs` (verco's terminal UI session).

The Rust code is an interactive loop over a raw-mode terminal: it reads key
events, dispatches them through `Tui::handle_key` to a pluggable
version-control backend, and renders results through buffered writes.

Modelling conventions:
* `stdout` writes become an ordered event list (`OutEvent`): buffered
  `write!` calls, `println!` calls (which bypass the buffered handle), and
  explicit `flush` calls.
* Backend calls are recorded in order (`BackendCall`); their results come
  from reply scripts stored in the state (`resScript` for the string-result
  operations, `filesScript` for `get_files_to_commit`), since the backend is
  an external, stateful collaborator whose answers can differ per call.
* `rustyline` prompt results come from a script (`readlineScript`); an
  exhausted script stands for end-of-input.
* The selection UI (`draw_select`, from the `select` module that is not part
  of the sources) consumes `SelectKey`s from `selectScript`.
* Terminal escape sequences (termion colors, clear, goto) are modelled as
  distinct marker strings.
* A Rust `panic!`/`expect` failure is modelled as `Except.error` carrying the
  state at the moment of the unwind and the panic message.
-/

namespace Verco

/-- Modelled from the spec: `Entry` (module `select`, not in the sources) is a
file path plus a mutable inclusion flag used by the selective-commit UI. -/
structure Entry where
  path : String
  included : Bool
deriving DecidableEq, Repr

/-- One event on the terminal output stream: a buffered write, an unbuffered
println (used only by the prompt error arm), or a flush of the buffer. -/
inductive OutEvent where
  | write (s : String)
  | println (s : String)
  | flush
deriving DecidableEq, Repr

/-- A recorded invocation of the version-control backend, with its arguments. -/
inductive BackendCall where
  | status
  | log
  | changes (revision : String)
  | diff (revision : String)
  | commit_all (message : String)
  | get_files_to_commit
  | commit_selected (message : String) (entries : List Entry)
  | revert
  | update (target : String)
  | merge (target : String)
  | conflicts
  | take_local
  | take_other
  | fetch
  | pull
  | push
  | create_tag (name : String)
  | list_branches
  | create_branch (name : String)
  | close_branch (name : String)
  | version
deriving DecidableEq, Repr

/-- Result of one `rustyline` readline call: a line, `Interrupted` (ctrl+c),
`Eof` (ctrl+d / end of input), or another readline error. -/
inductive ReadlineResult where
  | ok (line : String)
  | interrupted
  | eof
  | err (e : String)
deriving DecidableEq, Repr

/-- Modelled from the spec: the keys the Selection List UI reacts to —
navigation up/down with wraparound, toggling the current entry, confirming,
or aborting the whole selection. -/
inductive SelectKey where
  | up
  | down
  | toggle
  | confirm
  | abort
deriving DecidableEq, Repr

/-- How a run of the Selection List UI ended. `blocked` marks the modelling
fiction of an exhausted key script: the real UI would block for input. -/
inductive SelectExit where
  | confirmed
  | aborted
  | blocked
deriving DecidableEq, Repr

/-- A decoded terminal key event, as matched by the session loop. -/
inductive Key where
  | ctrl (c : Char)
  | char (c : Char)
  | other
deriving DecidableEq, Repr

/-- One item of the stdin script: a decoded key, or a `None`/`Err` read from
the key iterator (the loop skips it but still flushes). -/
inductive KeyEvent where
  | key (k : Key)
  | noInput
deriving DecidableEq, Repr

/-- Why a run of the session loop ended: the quit combination, a panic
unwinding out of the loop, or the stdin script running out. -/
inductive SessionEnd where
  | quit
  | panicked (msg : String)
  | scriptEnded
deriving DecidableEq, Repr

deriving instance DecidableEq for Except

/-- The observable state threaded through the session: output events so far,
backend calls so far, the pending oracle scripts, and spawned commands. -/
structure TuiState where
  out : List OutEvent
  calls : List BackendCall
  resScript : List (Except String String)
  filesScript : List (Except String (List Entry))
  readlineScript : List ReadlineResult
  selectScript : List SelectKey
  spawned : List String
deriving DecidableEq, Repr

/-- Ambient environment of a session: repository name, the crate version
baked in at compile time, the terminal width probe result, and whether
spawning the file explorer succeeds. -/
structure Env where
  repositoryName : String
  cargoVersion : String
  termWidth : Option Nat
  explorerSpawnOk : Bool
deriving DecidableEq, Repr

/- Terminal escape sequences, modelled as distinct marker strings. -/

def RESET_COLOR : String := "[reset-color]"

def RESET_BG_COLOR : String := "[reset-bg-color]"

def HEADER_COLOR : String := "[header-color]"

def HEADER_BG_COLOR : String := "[header-bg-color]"

def ACTION_COLOR : String := "[action-color]"

def ENTRY_COLOR : String := "[entry-color]"

def DONE_COLOR : String := "[done-color]"

def CANCEL_COLOR : String := "[cancel-color]"

def ERROR_COLOR : String := "[error-color]"

def clearAll : String := "[clear-all]"

def goto11 : String := "[goto-1-1]"

/-- Append one buffered `write!` to the output stream. -/
def wr (s : String) (st : TuiState) : TuiState :=
  { st with out := st.out ++ [OutEvent.write s] }

/-- Append one unbuffered `println!` to the output stream. -/
def prn (s : String) (st : TuiState) : TuiState :=
  { st with out := st.out ++ [OutEvent.println s] }

/-- Append one `stdout.flush()` to the output stream. -/
def flushOut (st : TuiState) : TuiState :=
  { st with out := st.out ++ [OutEvent.flush] }

/-- Invoke a string-result backend operation: record the call and consume the
next reply from the reply script (an exhausted script answers `Ok ""`). -/
def callRes (c : BackendCall) (st : TuiState) : Except String String × TuiState :=
  match st.resScript with
  | [] => (Except.ok "", { st with calls := st.calls ++ [c] })
  | r :: rest => (r, { st with calls := st.calls ++ [c], resScript := rest })

/-- Invoke `get_files_to_commit`: record the call and consume the next reply
from the file-list reply script (an exhausted script answers `Ok []`). -/
def callFiles (st : TuiState) : Except String (List Entry) × TuiState :=
  match st.filesScript with
  | [] => (Except.ok [], { st with calls := st.calls ++ [BackendCall.get_files_to_commit] })
  | r :: rest =>
    (r, { st with calls := st.calls ++ [BackendCall.get_files_to_commit], filesScript := rest })

/-- One `rustyline` readline: consume the next scripted result; an exhausted
script is end-of-input. -/
def readLine (st : TuiState) : ReadlineResult × TuiState :=
  match st.readlineScript with
  | [] => (ReadlineResult.eof, st)
  | r :: rest => (r, { st with readlineScript := rest })

/-- The writes produced by `Tui::show_header`: clear the screen, paint the
header bar across the terminal width when the width probe succeeds, print
the `Verco @ repository` title, and flush. -/
def show_header_out (env : Env) : List OutEvent :=
  [OutEvent.write clearAll]
    ++ (match env.termWidth with
        | some w =>
          [OutEvent.write (goto11 ++ HEADER_COLOR ++ HEADER_BG_COLOR),
            OutEvent.write (String.mk (List.replicate w ' '))]
        | none => [])
    ++ [OutEvent.write (HEADER_COLOR ++ goto11 ++ "Verco @ " ++ env.repositoryName
          ++ RESET_COLOR ++ RESET_BG_COLOR ++ "\n\n"),
        OutEvent.flush]

/-- `Tui::show_header`. -/
def show_header (env : Env) (st : TuiState) : TuiState :=
  { st with out := st.out ++ show_header_out env }

/-- The writes produced by `Tui::show_action`: the full header redraw
followed by the action name banner. -/
def show_action_out (env : Env) (action_name : String) : List OutEvent :=
  show_header_out env
    ++ [OutEvent.write (ACTION_COLOR ++ action_name ++ RESET_COLOR ++ "\n\n")]

/-- `Tui::show_action`. -/
def show_action (env : Env) (action_name : String) (st : TuiState) : TuiState :=
  { st with out := st.out ++ show_action_out env action_name }

/-- The single write produced by `Tui::show_help_action` for one help line. -/
def show_help_action_out (shortcut action : String) : List OutEvent :=
  [OutEvent.write ("\t" ++ ENTRY_COLOR ++ shortcut ++ RESET_COLOR ++ "\t\t" ++ action ++ "\n")]

/-- The static help listing written by `Tui::show_help` after the version
banner: every action's key binding and display name, in source order. -/
def help_listing_out : List OutEvent :=
  [OutEvent.write "press a key and peform an action\n\n"]
    ++ show_help_action_out "h" "help\n"
    ++ show_help_action_out "e" "explorer\n"
    ++ show_help_action_out "s" "status"
    ++ show_help_action_out "l" "log\n"
    ++ show_help_action_out "d" "revision changes"
    ++ show_help_action_out "shift+d" "revision diff\n"
    ++ show_help_action_out "c" "commit all"
    ++ show_help_action_out "shift+c" "commit selected"
    ++ show_help_action_out "shift+u" "revert"
    ++ show_help_action_out "u" "update/checkout"
    ++ show_help_action_out "m" "merge\n"
    ++ show_help_action_out "r" "unresolved conflicts"
    ++ show_help_action_out "shift+r" "resolve taking other"
    ++ show_help_action_out "ctrl+r" "resolve taking local\n"
    ++ show_help_action_out "f" "fetch"
    ++ show_help_action_out "p" "pull"
    ++ show_help_action_out "shift+p" "push\n"
    ++ show_help_action_out "shift+t" "create tag\n"
    ++ show_help_action_out "b" "list branches"
    ++ show_help_action_out "shift+b" "create branch"
    ++ show_help_action_out "ctrl+b" "close branch\n"

/-- `Tui::show_help`: print the crate version, probe the backend with
`version()`, and either print the backend version and the help listing, or
print the error and panic (`Could not find version control in system`). -/
def show_help (env : Env) (st : TuiState) : Except (TuiState × String) TuiState :=
  let st1 := wr ("Verco " ++ env.cargoVersion ++ "\n\n") st
  let r := callRes BackendCall.version st1
  match r.1 with
  | Except.ok version =>
    let st2 := wr "\n\n" (wr version r.2)
    Except.ok { st2 with out := st2.out ++ help_listing_out }
  | Except.error error =>
    Except.error (wr (ERROR_COLOR ++ error) r.2, "Could not find version control in system")

/-- The single buffered write of the cancellation banner. -/
def cancelBannerStr : String := "\n\n" ++ CANCEL_COLOR ++ "canceled" ++ RESET_COLOR ++ "\n\n"

/-- `Tui::handle_input`: print the prompt, run readline, and return the line,
or `none` after the cancel banner (`Interrupted`/`Eof`) or after reporting
any other readline error via `println!`. -/
def handle_input (prompt : String) (st : TuiState) : Option String × TuiState :=
  let st1 := wr (ENTRY_COLOR ++ prompt ++ RESET_COLOR ++ "\n") st
  let r := readLine st1
  match r.1 with
  | ReadlineResult.ok line => (some line, r.2)
  | ReadlineResult.interrupted => (none, wr cancelBannerStr r.2)
  | ReadlineResult.eof => (none, wr cancelBannerStr r.2)
  | ReadlineResult.err e => (none, prn ("error " ++ e ++ "\n\n") r.2)

/-- `Tui::handle_result`: render a backend outcome — the payload then the
`done` banner on success, the payload then the `error` banner on failure. -/
def handle_result (result : Except String String) (st : TuiState) : TuiState :=
  match result with
  | Except.ok output =>
    wr (DONE_COLOR ++ "done" ++ RESET_COLOR ++ "\n\n") (wr (output ++ "\n\n") st)
  | Except.error error =>
    wr (ERROR_COLOR ++ "error" ++ RESET_COLOR ++ "\n\n") (wr (error ++ "\n\n") st)

/-- `Tui::open_explorer`: spawn the OS file explorer on the repository path;
a spawn failure panics (`failed to open explorer`), success writes `done`. -/
def open_explorer (env : Env) (st : TuiState) : Except (TuiState × String) TuiState :=
  let st1 := { st with spawned := st.spawned ++ ["explorer " ++ env.repositoryName] }
  if env.explorerSpawnOk then
    Except.ok (wr (DONE_COLOR ++ "done" ++ RESET_COLOR ++ "\n\n") st1)
  else
    Except.error (st1, "failed to open explorer")

/-- Modelled from the spec: toggling the `included` flag of the entry at a
given position, leaving every other entry and the order untouched. -/
def toggleAt : List Entry → Nat → List Entry
  | [], _ => []
  | e :: es, 0 => { e with included := !e.included } :: es
  | e :: es, n + 1 => e :: toggleAt es n

/-- Modelled from the spec: the Selection List UI's rendering of one entry —
a cursor mark for the current entry and an included/excluded mark. -/
def renderEntryLine (e : Entry) (current : Bool) : String :=
  (if current then "> " else "  ") ++ (if e.included then "[+] " else "[-] ") ++ e.path ++ "\n"

/-- Modelled from the spec: the Selection List UI's rendering of the whole
entry list with the current index highlighted. -/
def renderSelect (entries : List Entry) (index : Nat) : String :=
  String.join ((entries.enum).map (fun p => renderEntryLine p.2 (p.1 = index)))

/-- Modelled from the spec: `draw_select` (module `select`, not in the
sources) processes one key: up/down move the current index with wraparound,
toggle flips the current entry's flag, confirm/abort end the UI. Returns the
updated entries, the updated index, and whether the UI keeps running. -/
def draw_select (entries : List Entry) (index : Nat) (k : SelectKey) :
    List Entry × Nat × Bool :=
  match k with
  | SelectKey.up => (entries, (if index = 0 then entries.length - 1 else index - 1), true)
  | SelectKey.down => (entries, (if index + 1 ≥ entries.length then 0 else index + 1), true)
  | SelectKey.toggle => (toggleAt entries index, index, true)
  | SelectKey.confirm => (entries, index, false)
  | SelectKey.abort => (entries, index, false)

/-- The exit tag of the key that ended the Selection List UI. -/
def exitTag (k : SelectKey) : SelectExit :=
  if k = SelectKey.confirm then SelectExit.confirmed else SelectExit.aborted

/-- The pure evolution of the Selection List UI: final entries and exit tag
of running a key script from a starting entry list and index. -/
def selRun : List SelectKey → List Entry → Nat → List Entry × SelectExit
  | [], es, _ => (es, SelectExit.blocked)
  | k :: ks, es, index =>
    let r := draw_select es index k
    if r.2.2 then selRun ks r.1 r.2.1 else (r.1, exitTag k)

/-- The loop body of `Tui::show_add_remove_ui`: each iteration clears the
screen, redraws the action banner, renders the list (inside `draw_select`),
and processes one key, until `draw_select` returns false. -/
def show_add_remove_ui_go (env : Env) :
    List SelectKey → List Entry → Nat → TuiState → TuiState × List Entry × SelectExit
  | [], es, _, st => ({ st with selectScript := [] }, es, SelectExit.blocked)
  | k :: ks, es, index, st =>
    let st1 := { st with selectScript := ks }
    let st2 := wr (renderSelect es index) (show_action env "commit selected" (wr clearAll st1))
    let r := draw_select es index k
    if r.2.2 then show_add_remove_ui_go env ks r.1 r.2.1 st2
    else (st2, r.1, exitTag k)

/-- `Tui::show_add_remove_ui`: run the Selection List UI from index 0 over
the scripted keys. -/
def show_add_remove_ui (env : Env) (entries : List Entry) (st : TuiState) :
    TuiState × List Entry × SelectExit :=
  show_add_remove_ui_go env st.selectScript entries 0 st

/-- `Tui::handle_key`: the action table, dispatching a character plus
control-modifier flag to the matching action; unmatched pairs do nothing. -/
def handle_key (env : Env) (key : Char) (is_control_held : Bool) (st : TuiState) :
    Except (TuiState × String) TuiState :=
  if is_control_held then
    if key = 'b' then
      let st1 := show_action env "close branch" st
      let p := handle_input "branch to close (ctrl+c to cancel): " st1
      match p.1 with
      | some input =>
        let r := callRes (BackendCall.close_branch input) p.2
        Except.ok (handle_result r.1 r.2)
      | none => Except.ok p.2
    else if key = 'r' then
      let st1 := show_action env "merge taking local" st
      let r := callRes BackendCall.take_local st1
      Except.ok (handle_result r.1 r.2)
    else Except.ok st
  else
    if key = 'h' then
      show_help env (show_action env "help" st)
    else if key = 'e' then
      open_explorer env (show_action env "explorer" st)
    else if key = 's' then
      let st1 := show_action env "status" st
      let r := callRes BackendCall.status st1
      Except.ok (handle_result r.1 r.2)
    else if key = 'l' then
      let st1 := show_action env "log" st
      let r := callRes BackendCall.log st1
      Except.ok (handle_result r.1 r.2)
    else if key = 'd' then
      let st1 := show_action env "revision changes" st
      let p := handle_input "show changes from (ctrl+c to cancel): " st1
      match p.1 with
      | some input =>
        let r := callRes (BackendCall.changes input) p.2
        Except.ok (handle_result r.1 r.2)
      | none => Except.ok p.2
    else if key = 'D' then
      let st1 := show_action env "revision diff" st
      let p := handle_input "show diff from (ctrl+c to cancel): " st1
      match p.1 with
      | some input =>
        let r := callRes (BackendCall.diff input) p.2
        Except.ok (handle_result r.1 r.2)
      | none => Except.ok p.2
    else if key = 'c' then
      let st1 := show_action env "commit all" st
      let p := handle_input "commit message (ctrl+c to cancel): " st1
      match p.1 with
      | some input =>
        let r := callRes (BackendCall.commit_all input) p.2
        Except.ok (handle_result r.1 r.2)
      | none => Except.ok p.2
    else if key = 'C' then
      let st1 := show_action env "commit selected" st
      let q := callFiles st1
      match q.1 with
      | Except.ok entries =>
        let u := show_add_remove_ui env entries q.2
        let st2 := wr "\n\n" u.1
        let p := handle_input "commit message (ctrl+c to cancel): " st2
        match p.1 with
        | some input =>
          let r := callRes (BackendCall.commit_selected input u.2.1) p.2
          Except.ok (handle_result r.1 r.2)
        | none => Except.ok p.2
      | Except.error error => Except.ok (handle_result (Except.error error) q.2)
    else if key = 'U' then
      let st1 := show_action env "revert" st
      let r := callRes BackendCall.revert st1
      Except.ok (handle_result r.1 r.2)
    else if key = 'u' then
      let st1 := show_action env "update" st
      let p := handle_input "update to (ctrl+c to cancel): " st1
      match p.1 with
      | some input =>
        let r := callRes (BackendCall.update input) p.2
        Except.ok (handle_result r.1 r.2)
      | none => Except.ok p.2
    else if key = 'm' then
      let st1 := show_action env "merge" st
      let p := handle_input "merge with (ctrl+c to cancel): " st1
      match p.1 with
      | some input =>
        let r := callRes (BackendCall.merge input) p.2
        Except.ok (handle_result r.1 r.2)
      | none => Except.ok p.2
    else if key = 'r' then
      let st1 := show_action env "unresolved conflicts" st
      let r := callRes BackendCall.conflicts st1
      Except.ok (handle_result r.1 r.2)
    else if key = 'R' then
      let st1 := show_action env "merge taking other" st
      let r := callRes BackendCall.take_other st1
      Except.ok (handle_result r.1 r.2)
    else if key = 'f' then
      let st1 := show_action env "fetch" st
      let r := callRes BackendCall.fetch st1
      Except.ok (handle_result r.1 r.2)
    else if key = 'p' then
      let st1 := show_action env "pull" st
      let r := callRes BackendCall.pull st1
      Except.ok (handle_result r.1 r.2)
    else if key = 'P' then
      let st1 := show_action env "push" st
      let r := callRes BackendCall.push st1
      Except.ok (handle_result r.1 r.2)
    else if key = 'T' then
      let st1 := show_action env "tag" st
      let p := handle_input "tag name (ctrl+c to cancel): " st1
      match p.1 with
      | some input =>
        let r := callRes (BackendCall.create_tag input) p.2
        Except.ok (handle_result r.1 r.2)
      | none => Except.ok p.2
    else if key = 'b' then
      let st1 := show_action env "branches" st
      let r := callRes BackendCall.list_branches st1
      Except.ok (handle_result r.1 r.2)
    else if key = 'B' then
      let st1 := show_action env "branch" st
      let p := handle_input "branch name (ctrl+c to cancel): " st1
      match p.1 with
      | some input =>
        let r := callRes (BackendCall.create_branch input) p.2
        Except.ok (handle_result r.1 r.2)
      | none => Except.ok p.2
    else Except.ok st

/-- The `loop` inside `Tui::show`: read one key event per iteration; ctrl+c
breaks out (before the flush); a decoded key is dispatched and the buffer is
flushed afterwards; undecodable events only flush. A panic unwinds without
the iteration's flush. -/
def sessionLoop (env : Env) : List KeyEvent → TuiState → TuiState × SessionEnd
  | [], st => (st, SessionEnd.scriptEnded)
  | KeyEvent.key k :: evs, st =>
    (match k with
    | Key.ctrl c =>
      if c = 'c' then (st, SessionEnd.quit)
      else
        match handle_key env c true st with
        | Except.ok st1 => sessionLoop env evs (flushOut st1)
        | Except.error p => (p.1, SessionEnd.panicked p.2)
    | Key.char c =>
      match handle_key env c false st with
      | Except.ok st1 => sessionLoop env evs (flushOut st1)
      | Except.error p => (p.1, SessionEnd.panicked p.2)
    | Key.other => sessionLoop env evs (flushOut st))
  | KeyEvent.noInput :: evs, st => sessionLoop env evs (flushOut st)

/-- The startup phase of `Tui::show`: the header and the first help listing
(which performs the backend version probe, and panics if it fails). -/
def startup (env : Env) (st : TuiState) : Except (TuiState × String) TuiState :=
  show_help env (show_header env st)

/-- `Tui::show`, the whole session: startup then the key loop; a startup
panic means the loop never runs. -/
def show_tui (env : Env) (events : List KeyEvent) (st : TuiState) : TuiState × SessionEnd :=
  match startup env st with
  | Except.ok st1 => sessionLoop env events st1
  | Except.error p => (p.1, SessionEnd.panicked p.2)

/- Helper definitions used by the claim statements. -/

/-- The key/modifier pairs present in the dispatch table of `handle_key`. -/
def isMapped (key : Char) (is_control_held : Bool) : Bool :=
  if is_control_held then key = 'b' || key = 'r'
  else
    key = 'h' || key = 'e' || key = 's' || key = 'l' || key = 'd' || key = 'D' ||
    key = 'c' || key = 'C' || key = 'U' || key = 'u' || key = 'm' || key = 'r' ||
    key = 'R' || key = 'f' || key = 'p' || key = 'P' || key = 'T' || key = 'b' ||
    key = 'B'

/-- The key/modifier pairs of the actions whose dispatch opens a text prompt
(the selective-commit action is listed separately: its commit-message prompt
comes after a backend query and the selection UI). -/
def promptActions : List (Char × Bool) :=
  [('b', true), ('d', false), ('D', false), ('c', false), ('u', false), ('m', false),
    ('T', false), ('B', false)]

/-- Display name of each prompting action, as written by its action banner. -/
def actionNameOf (key : Char) (is_control_held : Bool) : String :=
  if is_control_held then "close branch"
  else if key = 'd' then "revision changes"
  else if key = 'D' then "revision diff"
  else if key = 'c' then "commit all"
  else if key = 'u' then "update"
  else if key = 'm' then "merge"
  else if key = 'T' then "tag"
  else "branch"

/-- Prompt text of each prompting action. -/
def promptTextOf (key : Char) (is_control_held : Bool) : String :=
  if is_control_held then "branch to close (ctrl+c to cancel): "
  else if key = 'd' then "show changes from (ctrl+c to cancel): "
  else if key = 'D' then "show diff from (ctrl+c to cancel): "
  else if key = 'c' then "commit message (ctrl+c to cancel): "
  else if key = 'u' then "update to (ctrl+c to cancel): "
  else if key = 'm' then "merge with (ctrl+c to cancel): "
  else if key = 'T' then "tag name (ctrl+c to cancel): "
  else "branch name (ctrl+c to cancel): "

/-- The backend call each prompting action makes with the prompted text. -/
def promptCallOf (key : Char) (is_control_held : Bool) (s : String) : BackendCall :=
  if is_control_held then BackendCall.close_branch s
  else if key = 'd' then BackendCall.changes s
  else if key = 'D' then BackendCall.diff s
  else if key = 'c' then BackendCall.commit_all s
  else if key = 'u' then BackendCall.update s
  else if key = 'm' then BackendCall.merge s
  else if key = 'T' then BackendCall.create_tag s
  else BackendCall.create_branch s

/-- The write event of a prompt line. -/
def promptWrite (prompt : String) : OutEvent :=
  OutEvent.write (ENTRY_COLOR ++ prompt ++ RESET_COLOR ++ "\n")

/-- The write event of the cancellation banner. -/
def cancelWrite : OutEvent := OutEvent.write cancelBannerStr

/-- Number of flushes in an output trace. -/
def countFlushes (l : List OutEvent) : Nat :=
  l.countP (fun e => match e with | OutEvent.flush => true | _ => false)

/-- The state carried by either side of a panicking computation. -/
def stOf (r : Except (TuiState × String) TuiState) : TuiState :=
  match r with
  | Except.ok st => st
  | Except.error p => p.1

/-- Head of a readline script, with the exhausted-script convention. -/
def headRL : List ReadlineResult → ReadlineResult
  | [] => ReadlineResult.eof
  | r :: _ => r

/-- A fresh session state over given oracle scripts. -/
def initState (res : List (Except String String)) (files : List (Except String (List Entry)))
    (rl : List ReadlineResult) (sel : List SelectKey) : TuiState :=
  { out := [], calls := [], resScript := res, filesScript := files,
    readlineScript := rl, selectScript := sel, spawned := [] }

/-- A concrete environment used by witnesses and counterexamples. -/
def cenv : Env :=
  { repositoryName := "repo", cargoVersion := "0.0.0", termWidth := some 4,
    explorerSpawnOk := true }

/-- Whether a possibly-panicking computation completed normally. -/
def isOkB (r : Except (TuiState × String) TuiState) : Bool :=
  match r with
  | Except.ok _ => true
  | Except.error _ => false

/-- The panic message of a panicking computation (empty on success). -/
def panicMsgOf (r : Except (TuiState × String) TuiState) : String :=
  match r with
  | Except.ok _ => ""
  | Except.error p => p.2

/-- The number of passes the Selection List UI makes over a key script:
each processed key is one pass, and each pass redraws the action banner
(hence flushes once inside `show_header`). -/
def selPasses : List SelectKey → List Entry → Nat → Nat
  | [], _, _ => 0
  | k :: ks, es, index =>
    let r := draw_select es index k
    if r.2.2 then 1 + selPasses ks r.1 r.2.1 else 1

/-- A concrete state used with the flush-discipline theorem: a failing
version probe reply and one successful (empty) file query. -/
def c5state : TuiState := initState [Except.error "gone"] [Except.ok []] [] []

/- Helper lemmas about the embedding, shared by the claim theorems. -/

theorem toggleAt_map_path (es : List Entry) (i : Nat) :
    (toggleAt es i).map Entry.path = es.map Entry.path := by
  induction es generalizing i with
  | nil => simp [toggleAt]
  | cons e es ih =>
    cases i with
    | zero => simp [toggleAt]
    | succ n => simp [toggleAt, ih]

theorem selRun_map_path (ks : List SelectKey) (es : List Entry) (i : Nat) :
    ((selRun ks es i).1).map Entry.path = es.map Entry.path := by
  induction ks generalizing es i with
  | nil => simp [selRun]
  | cons k ks ih =>
    cases k <;> simp [selRun, draw_select, exitTag, ih, toggleAt_map_path]

theorem go_fst_calls (env : Env) (ks : List SelectKey) (es : List Entry) (i : Nat)
    (st : TuiState) : (show_add_remove_ui_go env ks es i st).1.calls = st.calls := by
  induction ks generalizing es i st with
  | nil => simp [show_add_remove_ui_go]
  | cons k ks ih =>
    cases k <;> simp [show_add_remove_ui_go, draw_select, wr, show_action, ih]

theorem go_fst_readline (env : Env) (ks : List SelectKey) (es : List Entry) (i : Nat)
    (st : TuiState) :
    (show_add_remove_ui_go env ks es i st).1.readlineScript = st.readlineScript := by
  induction ks generalizing es i st with
  | nil => simp [show_add_remove_ui_go]
  | cons k ks ih =>
    cases k <;> simp [show_add_remove_ui_go, draw_select, wr, show_action, ih]

theorem go_snd (env : Env) (ks : List SelectKey) (es : List Entry) (i : Nat)
    (st : TuiState) : (show_add_remove_ui_go env ks es i st).2 = selRun ks es i := by
  induction ks generalizing es i st with
  | nil => simp [show_add_remove_ui_go, selRun]
  | cons k ks ih =>
    cases k <;> simp [show_add_remove_ui_go, selRun, draw_select, exitTag, ih]

theorem callRes_snd_calls (c : BackendCall) (st : TuiState) :
    (callRes c st).2.calls = st.calls ++ [c] := by
  cases h : st.resScript <;> simp [callRes, h]

theorem callRes_snd_out (c : BackendCall) (st : TuiState) :
    (callRes c st).2.out = st.out := by
  cases h : st.resScript <;> simp [callRes, h]

theorem handle_result_calls (r : Except String String) (st : TuiState) :
    (handle_result r st).calls = st.calls := by
  cases r <;> simp [handle_result, wr]

theorem countFlushes_append (l1 l2 : List OutEvent) :
    countFlushes (l1 ++ l2) = countFlushes l1 + countFlushes l2 := by
  simp [countFlushes, List.countP_append]

theorem countFlushes_handle_result (r : Except String String) (st : TuiState) :
    countFlushes (handle_result r st).out = countFlushes st.out := by
  cases r <;> simp [handle_result, wr, countFlushes_append, countFlushes]

theorem countFlushes_show_action_out (env : Env) (name : String) :
    countFlushes (show_action_out env name) = 1 := by
  cases h : env.termWidth <;>
    simp [show_action_out, show_header_out, h, countFlushes]

theorem countFlushes_nil : countFlushes [] = 0 := rfl

theorem countFlushes_cons_write (s : String) (l : List OutEvent) :
    countFlushes (OutEvent.write s :: l) = countFlushes l := by
  simp [countFlushes, List.countP_cons]

theorem countFlushes_cons_println (s : String) (l : List OutEvent) :
    countFlushes (OutEvent.println s :: l) = countFlushes l := by
  simp [countFlushes, List.countP_cons]

theorem countFlushes_cons_flush (l : List OutEvent) :
    countFlushes (OutEvent.flush :: l) = countFlushes l + 1 := by
  simp [countFlushes, List.countP_cons]

theorem countFlushes_flushOut (st : TuiState) :
    countFlushes (flushOut st).out = countFlushes st.out + 1 := by
  simp [flushOut, countFlushes_append, countFlushes_cons_flush, countFlushes_nil]

theorem countFlushes_callRes (c : BackendCall) (st : TuiState) :
    countFlushes (callRes c st).2.out = countFlushes st.out := by
  rw [callRes_snd_out]

theorem countFlushes_handle_input (prompt : String) (st : TuiState) :
    countFlushes (handle_input prompt st).2.out = countFlushes st.out := by
  rcases h : st.readlineScript with _ | ⟨a, l⟩
  · simp [handle_input, readLine, wr, h, countFlushes_append, countFlushes_cons_write,
      countFlushes_nil]
  · cases a <;>
      simp [handle_input, readLine, wr, prn, h, countFlushes_append,
        countFlushes_cons_write, countFlushes_cons_println, countFlushes_nil]

theorem countFlushes_go (env : Env) (ks : List SelectKey) (es : List Entry) (i : Nat)
    (st : TuiState) :
    countFlushes (show_add_remove_ui_go env ks es i st).1.out
      = countFlushes st.out + selPasses ks es i := by
  induction ks generalizing es i st with
  | nil => simp [show_add_remove_ui_go, selPasses]
  | cons k ks ih =>
    cases k <;>
      simp [show_add_remove_ui_go, selPasses, draw_select, wr, show_action, ih,
        countFlushes_append, countFlushes_show_action_out, countFlushes_cons_write,
        countFlushes_nil] <;>
      omega

/-- C1 (counterexample): the claim says no key dispatched during the loop can
trigger the fatal version-probe termination. But the `h` (help) key reruns
`show_help`, which probes `version()` again and panics on failure: with a
backend whose probe succeeds at startup and fails afterwards, dispatching
`h` terminates the session with the version-probe panic. -/
theorem c1_counterexample :
    (show_tui cenv [KeyEvent.key (Key.char 'h')]
        (initState [Except.ok "git version 2", Except.error "git missing"] [] [] [])).2
      = SessionEnd.panicked "Could not find version control in system" := by
  decide

/-- C1 (amended): failure of the backend version probe is fatal whenever the
help listing runs the probe: at session startup the process terminates after
reporting the error — the only backend call made is `version()` and the
key-reading loop never starts, whatever the pending key events — and equally
when the `h` key is dispatched during the loop, which reruns the probe and
terminates the process if it fails. -/
theorem c1_version_probe_fatal (env : Env) (st : TuiState) (e : String)
    (rRest : List (Except String String)) (evs : List KeyEvent)
    (h : st.resScript = Except.error e :: rRest) :
    (∃ stF, show_tui env evs st
        = (stF, SessionEnd.panicked "Could not find version control in system") ∧
      stF.calls = st.calls ++ [BackendCall.version]) ∧
    (∃ stF, sessionLoop env (KeyEvent.key (Key.char 'h') :: evs) st
        = (stF, SessionEnd.panicked "Could not find version control in system")) := by
  constructor
  · simp [show_tui, startup, show_help, show_header, callRes, wr, h]
  · simp [sessionLoop, handle_key, show_help, show_action, callRes, wr, h]

/-- C1 witness: the amended theorem at a concrete failing probe. -/
theorem c1_witness :
    (∃ stF, show_tui cenv [] (initState [Except.error "gone"] [] [] [])
        = (stF, SessionEnd.panicked "Could not find version control in system") ∧
      stF.calls = (initState [Except.error "gone"] [] [] []).calls ++ [BackendCall.version]) ∧
    (∃ stF, sessionLoop cenv [KeyEvent.key (Key.char 'h')]
          (initState [Except.error "gone"] [] [] [])
        = (stF, SessionEnd.panicked "Could not find version control in system")) :=
  c1_version_probe_fatal cenv (initState [Except.error "gone"] [] [] []) "gone" [] [] rfl

/-- C2 (counterexample): the claim says the sequence passed to
`commit_selected` equals exactly the entries whose `included` flag is true at
confirmation time. After a Confirmed exit over two entries of which one is
excluded, the code passes the full two-entry sequence — which differs from
the included-only sequence. -/
theorem c2_counterexample :
    (stOf (handle_key cenv 'C' false
        (initState [Except.ok "committed"]
          [Except.ok [{ path := "a", included := true }, { path := "b", included := false }]]
          [ReadlineResult.ok "m"] [SelectKey.confirm]))).calls
      = [BackendCall.get_files_to_commit,
          BackendCall.commit_selected "m"
            [{ path := "a", included := true }, { path := "b", included := false }]] ∧
    selRun [SelectKey.confirm]
        [{ path := "a", included := true }, { path := "b", included := false }] 0
      = ([{ path := "a", included := true }, { path := "b", included := false }],
          SelectExit.confirmed) ∧
    List.filter (fun e : Entry => e.included)
        [{ path := "a", included := true }, { path := "b", included := false }]
      ≠ [{ path := "a", included := true }, { path := "b", included := false }] := by
  decide

/-- C2 (amended): after a Confirmed exit of the Selection List UI and entry
of a commit message, `commit_selected` is passed the full Entry sequence as
it stands at confirmation time — same paths in the original listing order,
with each entry's `included` flag as toggled by the user — regardless of the
navigation and toggling performed beforehand; in particular, the included
members of the passed sequence are exactly the entries whose flag is true at
confirmation time. -/
theorem c2_selected_full_list (env : Env) (st : TuiState) (es0 esf : List Entry)
    (fsRest : List (Except String (List Entry))) (msg : String)
    (rlRest : List ReadlineResult)
    (hf : st.filesScript = Except.ok es0 :: fsRest)
    (hrl : st.readlineScript = ReadlineResult.ok msg :: rlRest)
    (hsel : selRun st.selectScript es0 0 = (esf, SelectExit.confirmed)) :
    ∃ st1, handle_key env 'C' false st = Except.ok st1 ∧
      st1.calls = st.calls
        ++ [BackendCall.get_files_to_commit, BackendCall.commit_selected msg esf] ∧
      esf.map Entry.path = es0.map Entry.path := by
  have hp : esf.map Entry.path = es0.map Entry.path := by
    have h2 := selRun_map_path st.selectScript es0 0
    rw [hsel] at h2
    exact h2
  have hmain : ∃ st1, handle_key env 'C' false st = Except.ok st1 ∧
      st1.calls = st.calls
        ++ [BackendCall.get_files_to_commit, BackendCall.commit_selected msg esf] := by
    simp [handle_key, show_action, callFiles, hf, show_add_remove_ui, handle_input, wr,
      readLine, go_fst_readline, hrl, go_snd, hsel, callRes_snd_calls, handle_result_calls,
      go_fst_calls]
  obtain ⟨st1, h1, h2⟩ := hmain
  exact ⟨st1, h1, h2, hp⟩

/-- C2 witness: three entries, the user moves down, excludes the second,
confirms, and enters a message; the full three-entry list is passed with the
second entry excluded, in original order. -/
theorem c2_witness :
    ∃ st1, handle_key cenv 'C' false
        (initState [Except.ok "committed"]
          [Except.ok [{ path := "a", included := true }, { path := "b", included := true },
            { path := "c", included := true }]]
          [ReadlineResult.ok "fix bug"]
          [SelectKey.down, SelectKey.toggle, SelectKey.confirm])
      = Except.ok st1 ∧
      st1.calls = (initState [Except.ok "committed"]
          [Except.ok [{ path := "a", included := true }, { path := "b", included := true },
            { path := "c", included := true }]]
          [ReadlineResult.ok "fix bug"]
          [SelectKey.down, SelectKey.toggle, SelectKey.confirm]).calls
        ++ [BackendCall.get_files_to_commit,
            BackendCall.commit_selected "fix bug"
              [{ path := "a", included := true }, { path := "b", included := false },
                { path := "c", included := true }]] ∧
      ([{ path := "a", included := true }, { path := "b", included := false },
        { path := "c", included := true }] : List Entry).map Entry.path
        = ([{ path := "a", included := true }, { path := "b", included := true },
            { path := "c", included := true }] : List Entry).map Entry.path :=
  c2_selected_full_list cenv _ _ _ _ "fix bug" _ rfl rfl (by decide)

/-- C3: for every action whose dispatch opens a text prompt, cancelling the
prompt (interrupt or end-of-input) leaves the backend untouched and ends the
dispatch after the cancel banner: the resulting state is exactly the input
state with the action banner, the prompt line, and the cancel banner
appended to the screen and the readline script advanced — the call list is
unchanged (no backend operation ran) and no success or error banner is
rendered (no Outcome value was produced). -/
theorem c3_cancel_short_circuit (env : Env) (key : Char) (ctl : Bool) (st : TuiState)
    (rest : List ReadlineResult)
    (hm : (key, ctl) ∈ promptActions)
    (hr : st.readlineScript = ReadlineResult.interrupted :: rest
        ∨ st.readlineScript = ReadlineResult.eof :: rest) :
    handle_key env key ctl st = Except.ok { st with
      out := st.out ++ show_action_out env (actionNameOf key ctl)
        ++ [promptWrite (promptTextOf key ctl), cancelWrite],
      readlineScript := rest } := by
  simp only [promptActions, List.mem_cons, List.not_mem_nil, or_false,
    Prod.mk.injEq] at hm
  rcases hr with hr | hr <;>
    rcases hm with hm | hm | hm | hm | hm | hm | hm | hm <;>
    obtain ⟨rfl, rfl⟩ := hm <;>
    simp [handle_key, handle_input, show_action, wr, readLine, actionNameOf,
      promptTextOf, promptWrite, cancelWrite, hr]

/-- C3 witness: the `d` (revision changes) prompt interrupted by ctrl+c. -/
theorem c3_witness :
    handle_key cenv 'd' false (initState [] [] [ReadlineResult.interrupted] [])
      = Except.ok { (initState [] [] [ReadlineResult.interrupted] []) with
          out := (initState [] [] [ReadlineResult.interrupted] []).out
            ++ show_action_out cenv (actionNameOf 'd' false)
            ++ [promptWrite (promptTextOf 'd' false), cancelWrite],
          readlineScript := [] } :=
  c3_cancel_short_circuit cenv 'd' false (initState [] [] [ReadlineResult.interrupted] [])
    [] (by decide) (Or.inl rfl)

/-- C4: the selective-commit dispatch calls `get_files_to_commit` first; on
query failure the failure outcome is rendered and the dispatch ends — the
final state differs from the input only by the banner writes, the recorded
query call, and the consumed file reply: the select and readline scripts are
untouched (no Selection List UI, no commit-message prompt) and no
`commit_selected` call is recorded; on query success the Selection List UI
runs, and `commit_selected` with the selection result is recorded exactly
when the subsequent commit-message prompt returns a line. -/
theorem c4_commit_selected_sequencing (env : Env) (st : TuiState)
    (r : Except String (List Entry)) (fsRest : List (Except String (List Entry)))
    (hf : st.filesScript = r :: fsRest) :
    ∃ st1, handle_key env 'C' false st = Except.ok st1 ∧
      (match r with
        | Except.error e => st1 = { st with
            out := st.out ++ show_action_out env "commit selected"
              ++ [OutEvent.write (e ++ "\n\n"),
                  OutEvent.write (ERROR_COLOR ++ "error" ++ RESET_COLOR ++ "\n\n")],
            calls := st.calls ++ [BackendCall.get_files_to_commit],
            filesScript := fsRest }
        | Except.ok es =>
          st1.calls = st.calls ++ [BackendCall.get_files_to_commit]
            ++ (match headRL st.readlineScript with
                | ReadlineResult.ok msg =>
                  [BackendCall.commit_selected msg (selRun st.selectScript es 0).1]
                | _ => [])) := by
  cases r with
  | error e =>
    simp [handle_key, show_action, callFiles, hf, handle_result, wr]
  | ok es =>
    rcases hrl : st.readlineScript with _ | ⟨a, l⟩
    · simp [handle_key, show_action, callFiles, hf, show_add_remove_ui, handle_input,
        wr, readLine, go_fst_readline, hrl, headRL, go_fst_calls]
    · cases a <;>
        simp [handle_key, show_action, callFiles, hf, show_add_remove_ui, handle_input,
          wr, prn, readLine, go_fst_readline, hrl, headRL, go_fst_calls, go_snd,
          callRes_snd_calls, handle_result_calls]

/-- C4 witness: a failing `get_files_to_commit` query renders the failure and
stops before the Selection List UI and the prompt. -/
theorem c4_witness :
    ∃ st1, handle_key cenv 'C' false
        (initState [] [Except.error "boom"] [ReadlineResult.ok "msg"] [SelectKey.confirm])
      = Except.ok st1 ∧
      (match (Except.error "boom" : Except String (List Entry)) with
        | Except.error e => st1 = { (initState [] [Except.error "boom"]
              [ReadlineResult.ok "msg"] [SelectKey.confirm]) with
            out := (initState [] [Except.error "boom"]
                [ReadlineResult.ok "msg"] [SelectKey.confirm]).out
              ++ show_action_out cenv "commit selected"
              ++ [OutEvent.write (e ++ "\n\n"),
                  OutEvent.write (ERROR_COLOR ++ "error" ++ RESET_COLOR ++ "\n\n")],
            calls := (initState [] [Except.error "boom"]
                [ReadlineResult.ok "msg"] [SelectKey.confirm]).calls
              ++ [BackendCall.get_files_to_commit],
            filesScript := [] }
        | Except.ok es =>
          st1.calls = (initState [] [Except.error "boom"]
              [ReadlineResult.ok "msg"] [SelectKey.confirm]).calls
            ++ [BackendCall.get_files_to_commit]
            ++ (match headRL (initState [] [Except.error "boom"]
                  [ReadlineResult.ok "msg"] [SelectKey.confirm]).readlineScript with
                | ReadlineResult.ok msg =>
                  [BackendCall.commit_selected msg
                    (selRun (initState [] [Except.error "boom"]
                        [ReadlineResult.ok "msg"] [SelectKey.confirm]).selectScript es 0).1]
                | _ => [])) :=
  c4_commit_selected_sequencing cenv
    (initState [] [Except.error "boom"] [ReadlineResult.ok "msg"] [SelectKey.confirm])
    (Except.error "boom") [] rfl

/-- C5 (counterexample): the claim says buffered writes are flushed exactly
once per loop iteration. In a session whose startup flushes once (inside the
header redraw) and whose single iteration dispatches `s`, the final trace
holds three flushes: the iteration contributed two — one inside the
dispatch's header redraw and one at the end of the iteration — not one. -/
theorem c5_counterexample :
    countFlushes ((show_tui cenv [KeyEvent.key (Key.char 's')]
        (initState [Except.ok "vc", Except.ok "clean"] [] [] [])).1.out) = 3 ∧
    countFlushes ((stOf (startup cenv
        (initState [Except.ok "vc", Except.ok "clean"] [] [] []))).out) = 1 := by
  decide

/-- C5 (amended): the session loop flushes the buffer exactly once at the end
of every iteration whose dispatch completes without a panic — including
iterations that read nothing dispatchable — and a panicking dispatch ends the
session without that trailing flush; dispatches themselves flush once per
header redraw: the status dispatch flushes exactly once (so its iteration
flushes twice), the selective-commit dispatch flushes once for its action
banner plus once per selection-UI pass, and a help dispatch whose version
probe fails flushes exactly once before panicking. -/
theorem c5_flush_discipline (env : Env) (st : TuiState) (c : Char) (evs : List KeyEvent)
    (es : List Entry) (fsRest : List (Except String (List Entry))) (e : String)
    (rRest : List (Except String String)) :
    (isOkB (handle_key env c false st) = true →
      sessionLoop env (KeyEvent.key (Key.char c) :: evs) st
        = sessionLoop env evs (flushOut (stOf (handle_key env c false st)))) ∧
    (c ≠ 'c' → isOkB (handle_key env c true st) = true →
      sessionLoop env (KeyEvent.key (Key.ctrl c) :: evs) st
        = sessionLoop env evs (flushOut (stOf (handle_key env c true st)))) ∧
    (isOkB (handle_key env c false st) = false →
      sessionLoop env (KeyEvent.key (Key.char c) :: evs) st
        = (stOf (handle_key env c false st),
            SessionEnd.panicked (panicMsgOf (handle_key env c false st)))) ∧
    sessionLoop env (KeyEvent.noInput :: evs) st = sessionLoop env evs (flushOut st) ∧
    countFlushes (flushOut st).out = countFlushes st.out + 1 ∧
    countFlushes (stOf (handle_key env 's' false st)).out = countFlushes st.out + 1 ∧
    (st.filesScript = Except.ok es :: fsRest →
      countFlushes (stOf (handle_key env 'C' false st)).out
        = countFlushes st.out + (1 + selPasses st.selectScript es 0)) ∧
    (st.resScript = Except.error e :: rRest →
      countFlushes (stOf (handle_key env 'h' false st)).out
        = countFlushes st.out + 1) := by
  refine ⟨?_, ?_, ?_, by simp [sessionLoop], countFlushes_flushOut st, ?_, ?_, ?_⟩
  · intro hok
    cases h2 : handle_key env c false st with
    | ok s => simp [sessionLoop, h2, stOf]
    | error p => simp [isOkB, h2] at hok
  · intro hc hok
    cases h2 : handle_key env c true st with
    | ok s => simp [sessionLoop, hc, h2, stOf]
    | error p => simp [isOkB, h2] at hok
  · intro hok
    cases h2 : handle_key env c false st with
    | ok s => simp [isOkB, h2] at hok
    | error p => simp [sessionLoop, h2, stOf, panicMsgOf]
  · simp [handle_key, stOf]
    rw [countFlushes_handle_result, callRes_snd_out]
    simp only [show_action]
    rw [countFlushes_append, countFlushes_show_action_out]
  · intro hf
    rcases hrl : st.readlineScript with _ | ⟨a, l⟩
    · simp [handle_key, show_action, callFiles, hf, show_add_remove_ui, handle_input,
        readLine, go_fst_readline, hrl, stOf, wr, countFlushes_append, countFlushes_go,
        countFlushes_show_action_out, countFlushes_cons_write, countFlushes_nil,
        countFlushes_handle_result, countFlushes_callRes]
      omega
    · cases a <;>
        simp [handle_key, show_action, callFiles, hf, show_add_remove_ui, handle_input,
          readLine, go_fst_readline, hrl, stOf, wr, prn, countFlushes_append,
          countFlushes_go, countFlushes_show_action_out, countFlushes_cons_write,
          countFlushes_cons_println, countFlushes_nil, countFlushes_handle_result,
          countFlushes_callRes] <;>
        omega
  · intro h8
    simp [handle_key, show_help, show_action, wr, callRes, h8, stOf,
      countFlushes_append, countFlushes_show_action_out, countFlushes_cons_write,
      countFlushes_nil]

/-- C5 witness: the flush-discipline theorem at the concrete state `c5state`
(failing version probe reply, one successful empty file query) and the
dispatch character `s`. -/
theorem c5_witness :
    (isOkB (handle_key cenv 's' false c5state) = true →
      sessionLoop cenv [KeyEvent.key (Key.char 's')] c5state
        = sessionLoop cenv [] (flushOut (stOf (handle_key cenv 's' false c5state)))) ∧
    ('s' ≠ 'c' → isOkB (handle_key cenv 's' true c5state) = true →
      sessionLoop cenv [KeyEvent.key (Key.ctrl 's')] c5state
        = sessionLoop cenv [] (flushOut (stOf (handle_key cenv 's' true c5state)))) ∧
    (isOkB (handle_key cenv 's' false c5state) = false →
      sessionLoop cenv [KeyEvent.key (Key.char 's')] c5state
        = (stOf (handle_key cenv 's' false c5state),
            SessionEnd.panicked (panicMsgOf (handle_key cenv 's' false c5state)))) ∧
    sessionLoop cenv [KeyEvent.noInput] c5state
      = sessionLoop cenv [] (flushOut c5state) ∧
    countFlushes (flushOut c5state).out = countFlushes c5state.out + 1 ∧
    countFlushes (stOf (handle_key cenv 's' false c5state)).out
      = countFlushes c5state.out + 1 ∧
    (c5state.filesScript = Except.ok [] :: [] →
      countFlushes (stOf (handle_key cenv 'C' false c5state)).out
        = countFlushes c5state.out + (1 + selPasses c5state.selectScript [] 0)) ∧
    (c5state.resScript = Except.error "gone" :: [] →
      countFlushes (stOf (handle_key cenv 'h' false c5state)).out
        = countFlushes c5state.out + 1) :=
  c5_flush_discipline cenv c5state 's' [] [] [] "gone" []

/-- C6: dispatching any key/modifier pair absent from the binding table is a
no-op: `handle_key` returns the state unchanged — no backend call, no write,
no error — and the session loop processes such an event by only flushing the
buffer before continuing (the dedicated quit combination ctrl+c aside, which
never reaches dispatch). -/
theorem c6_unmapped_noop (env : Env) (key : Char) (ctl : Bool) (st : TuiState)
    (evs : List KeyEvent) (h : isMapped key ctl = false) :
    handle_key env key ctl st = Except.ok st ∧
    (ctl = false → sessionLoop env (KeyEvent.key (Key.char key) :: evs) st
        = sessionLoop env evs (flushOut st)) ∧
    (ctl = true → key ≠ 'c' → sessionLoop env (KeyEvent.key (Key.ctrl key) :: evs) st
        = sessionLoop env evs (flushOut st)) := by
  have h1 : handle_key env key ctl st = Except.ok st := by
    cases ctl
    · simp [isMapped] at h
      simp [handle_key, h]
    · simp [isMapped] at h
      simp [handle_key, h]
  refine ⟨h1, ?_, ?_⟩
  · rintro rfl
    simp [sessionLoop, h1]
  · rintro rfl hc
    simp [sessionLoop, hc, h1]

/-- C6 witness: the unmapped plain key `z`. -/
theorem c6_witness :
    handle_key cenv 'z' false (initState [] [] [] []) = Except.ok (initState [] [] [] []) ∧
    (false = false → sessionLoop cenv [KeyEvent.key (Key.char 'z')] (initState [] [] [] [])
        = sessionLoop cenv [] (flushOut (initState [] [] [] []))) ∧
    (false = true → 'z' ≠ 'c' →
      sessionLoop cenv [KeyEvent.key (Key.ctrl 'z')] (initState [] [] [] [])
        = sessionLoop cenv [] (flushOut (initState [] [] [] []))) :=
  c6_unmapped_noop cenv 'z' false (initState [] [] [] []) [] (by decide)

/-- C7: bindings are matched on the whole (character, modifier) pair: the
same character dispatches to different backend operations with and without
control — (r, control) records `take_local`, (r, plain) records `conflicts`,
(b, control) prompts and records `close_branch` with the prompted name,
(b, plain) records `list_branches`. -/
theorem c7_modifier_distinguishes (env : Env) (st : TuiState) (s : String)
    (rest : List ReadlineResult)
    (hb : st.readlineScript = ReadlineResult.ok s :: rest) :
    (∃ st1, handle_key env 'r' true st = Except.ok st1 ∧
      st1.calls = st.calls ++ [BackendCall.take_local]) ∧
    (∃ st1, handle_key env 'r' false st = Except.ok st1 ∧
      st1.calls = st.calls ++ [BackendCall.conflicts]) ∧
    (∃ st1, handle_key env 'b' true st = Except.ok st1 ∧
      st1.calls = st.calls ++ [BackendCall.close_branch s]) ∧
    (∃ st1, handle_key env 'b' false st = Except.ok st1 ∧
      st1.calls = st.calls ++ [BackendCall.list_branches]) := by
  refine ⟨?_, ?_, ?_, ?_⟩ <;>
    simp [handle_key, show_action, handle_input, wr, readLine, hb,
      callRes_snd_calls, handle_result_calls]

/-- C7 witness: the four dispatches at a concrete state. -/
theorem c7_witness :
    (∃ st1, handle_key cenv 'r' true (initState [] [] [ReadlineResult.ok "dev"] [])
        = Except.ok st1 ∧
      st1.calls = (initState [] [] [ReadlineResult.ok "dev"] []).calls
        ++ [BackendCall.take_local]) ∧
    (∃ st1, handle_key cenv 'r' false (initState [] [] [ReadlineResult.ok "dev"] [])
        = Except.ok st1 ∧
      st1.calls = (initState [] [] [ReadlineResult.ok "dev"] []).calls
        ++ [BackendCall.conflicts]) ∧
    (∃ st1, handle_key cenv 'b' true (initState [] [] [ReadlineResult.ok "dev"] [])
        = Except.ok st1 ∧
      st1.calls = (initState [] [] [ReadlineResult.ok "dev"] []).calls
        ++ [BackendCall.close_branch "dev"]) ∧
    (∃ st1, handle_key cenv 'b' false (initState [] [] [ReadlineResult.ok "dev"] [])
        = Except.ok st1 ∧
      st1.calls = (initState [] [] [ReadlineResult.ok "dev"] []).calls
        ++ [BackendCall.list_branches]) :=
  c7_modifier_distinguishes cenv (initState [] [] [ReadlineResult.ok "dev"] []) "dev" [] rfl

/-- C8: for every prompting action, the text returned by the prompt —
including the empty string — is passed unchanged as the argument of the
corresponding backend operation. -/
theorem c8_prompt_text_passthrough (env : Env) (key : Char) (ctl : Bool) (st : TuiState)
    (s : String) (rest : List ReadlineResult)
    (hm : (key, ctl) ∈ promptActions)
    (hr : st.readlineScript = ReadlineResult.ok s :: rest) :
    ∃ st1, handle_key env key ctl st = Except.ok st1 ∧
      st1.calls = st.calls ++ [promptCallOf key ctl s] := by
  simp only [promptActions, List.mem_cons, List.not_mem_nil, or_false,
    Prod.mk.injEq] at hm
  obtain hm | hm | hm | hm | hm | hm | hm | hm := hm <;>
    obtain ⟨rfl, rfl⟩ := hm <;>
    simp [handle_key, handle_input, show_action, wr, readLine, hr, promptCallOf,
      callRes_snd_calls, handle_result_calls]

/-- C8 witness: input `d` with prompt text `abc123` calls
`changes("abc123")`, and input `c` with the empty prompt text calls
`commit_all("")` — the text is passed through unvalidated. -/
theorem c8_witness :
    (∃ st1, handle_key cenv 'd' false (initState [] [] [ReadlineResult.ok "abc123"] [])
        = Except.ok st1 ∧
      st1.calls = (initState [] [] [ReadlineResult.ok "abc123"] []).calls
        ++ [BackendCall.changes "abc123"]) ∧
    (∃ st1, handle_key cenv 'c' false (initState [] [] [ReadlineResult.ok ""] [])
        = Except.ok st1 ∧
      st1.calls = (initState [] [] [ReadlineResult.ok ""] []).calls
        ++ [BackendCall.commit_all ""]) :=
  ⟨c8_prompt_text_passthrough cenv 'd' false (initState [] [] [ReadlineResult.ok "abc123"] [])
      "abc123" [] (by decide) rfl,
    c8_prompt_text_passthrough cenv 'c' false (initState [] [] [ReadlineResult.ok ""] [])
      "" [] (by decide) rfl⟩

/-- C9: dispatching `s` records exactly one `status()` call, and on a success
payload `t` the screen receives the action banner `status` (inside
`show_action_out`), then `t`, then the `done` success banner — and nothing
else. -/
theorem c9_status_dispatch (env : Env) (st : TuiState) (t : String)
    (rest : List (Except String String))
    (h : st.resScript = Except.ok t :: rest) :
    handle_key env 's' false st = Except.ok { st with
      out := st.out ++ show_action_out env "status"
        ++ [OutEvent.write (t ++ "\n\n"),
            OutEvent.write (DONE_COLOR ++ "done" ++ RESET_COLOR ++ "\n\n")],
      calls := st.calls ++ [BackendCall.status], resScript := rest } := by
  simp [handle_key, show_action, callRes, handle_result, wr, h]

/-- C9 witness: the backend answers `clean`. -/
theorem c9_witness :
    handle_key cenv 's' false (initState [Except.ok "clean"] [] [] [])
      = Except.ok { (initState [Except.ok "clean"] [] [] []) with
          out := (initState [Except.ok "clean"] [] [] []).out
            ++ show_action_out cenv "status"
            ++ [OutEvent.write ("clean" ++ "\n\n"),
                OutEvent.write (DONE_COLOR ++ "done" ++ RESET_COLOR ++ "\n\n")],
          calls := (initState [Except.ok "clean"] [] [] []).calls ++ [BackendCall.status],
          resScript := [] } :=
  c9_status_dispatch cenv (initState [Except.ok "clean"] [] [] []) "clean" [] rfl

/-- C10: ctrl+c is context dependent. At the idle loop it quits: the loop
returns immediately with the state untouched — no dispatch, no backend
call, not even the iteration flush. During a line prompt (here the `d`
action) an interrupt only cancels that prompt: the dispatch ends with the
call list unchanged and the cancel banner on screen, and the session loop
continues with the remaining events. -/
theorem c10_ctrl_c_two_meanings (env : Env) (st : TuiState) (evs : List KeyEvent)
    (rest : List ReadlineResult)
    (hr : st.readlineScript = ReadlineResult.interrupted :: rest) :
    sessionLoop env (KeyEvent.key (Key.ctrl 'c') :: evs) st = (st, SessionEnd.quit) ∧
    (∃ st1, handle_key env 'd' false st = Except.ok st1 ∧
      st1.calls = st.calls ∧
      st1.out = st.out ++ show_action_out env "revision changes"
        ++ [promptWrite "show changes from (ctrl+c to cancel): ", cancelWrite] ∧
      sessionLoop env (KeyEvent.key (Key.char 'd') :: evs) st
        = sessionLoop env evs (flushOut st1)) := by
  have h1 : handle_key env 'd' false st = Except.ok { st with
      out := st.out ++ show_action_out env "revision changes"
        ++ [promptWrite "show changes from (ctrl+c to cancel): ", cancelWrite],
      readlineScript := rest } := by
    simp [handle_key, handle_input, show_action, wr, readLine, promptWrite, cancelWrite,
      hr]
  refine ⟨by simp [sessionLoop], ⟨_, h1, rfl, by simp, by simp [sessionLoop, h1]⟩⟩

/-- C10 witness: the two meanings at a concrete state. -/
theorem c10_witness :
    sessionLoop cenv [KeyEvent.key (Key.ctrl 'c')]
        (initState [] [] [ReadlineResult.interrupted] [])
      = (initState [] [] [ReadlineResult.interrupted] [], SessionEnd.quit) ∧
    (∃ st1, handle_key cenv 'd' false (initState [] [] [ReadlineResult.interrupted] [])
        = Except.ok st1 ∧
      st1.calls = (initState [] [] [ReadlineResult.interrupted] []).calls ∧
      st1.out = (initState [] [] [ReadlineResult.interrupted] []).out
        ++ show_action_out cenv "revision changes"
        ++ [promptWrite "show changes from (ctrl+c to cancel): ", cancelWrite] ∧
      sessionLoop cenv [KeyEvent.key (Key.char 'd')]
          (initState [] [] [ReadlineResult.interrupted] [])
        = sessionLoop cenv [] (flushOut st1)) :=
  c10_ctrl_c_two_meanings cenv (initState [] [] [ReadlineResult.interrupted] []) [] [] rfl

end Verco
